import Mathlib

/-
Verification of the tile-proxy route of floodradar-drypath-map.

The definitions below are a shallow embedding of the route module
(`tile2lon`, `tile2lat`, `lonLatToWebMercator` and the `GET` handler).
JavaScript numbers are modelled as real numbers; the HTTP layer is
modelled by explicit request/response records, with the outbound
`fetch` given as an oracle so that the handler stays a pure function.
-/

namespace FloodRadar

open Real

/-- Tile pixel size constant from the route module (`TILE_SIZE = 256`). -/
def TILE_SIZE : ℕ := 256

/-- Earth equatorial radius in meters (`EARTH_RADIUS = 6378137`). -/
def EARTH_RADIUS : ℝ := 6378137

/-- `ORIGIN_SHIFT = Math.PI * EARTH_RADIUS`. -/
noncomputable def ORIGIN_SHIFT : ℝ := Real.pi * EARTH_RADIUS

/-- `tile2lon(x, z) = (x / 2 ** z) * 360 - 180`. -/
noncomputable def tile2lon (x z : ℝ) : ℝ :=
  x / (2 : ℝ) ^ z * 360 - 180

/-- `tile2lat(y, z)`: `n = π - 2πy / 2 ** z`;
result `(180/π) * atan(0.5 * (exp n - exp (-n)))`. -/
noncomputable def tile2lat (y z : ℝ) : ℝ :=
  let n := Real.pi - 2 * Real.pi * y / (2 : ℝ) ^ z
  (180 / Real.pi) * Real.arctan (0.5 * (Real.exp n - Real.exp (-n)))

/-- `lonLatToWebMercator(lon, lat)`: `x = lon * ORIGIN_SHIFT / 180`;
the latitude is clamped to `[-89.9999, 89.9999]` and
`y = log(tan((90 + clampedLat) * π / 360)) * EARTH_RADIUS`. -/
noncomputable def lonLatToWebMercator (lon lat : ℝ) : ℝ × ℝ :=
  let x := lon * ORIGIN_SHIFT / 180
  let clampedLat := max (min lat 89.9999) (-89.9999)
  let y := Real.log (Real.tan ((90 + clampedLat) * Real.pi / 360)) * EARTH_RADIUS
  (x, y)

/-- Projected bounding box in Web Mercator meters. -/
@[ext]
structure ProjectedBoundingBox where
  minX : ℝ
  minY : ℝ
  maxX : ℝ
  maxY : ℝ

/-- The bbox computation inlined in the `GET` handler (lines 45-51 of the
route module): north/west from the tile's own row/column, south/east from
row+1/column+1, southwest corner = (west, south), northeast = (east, north). -/
noncomputable def computeProjectedBBox (zoom tileX tileY : ℝ) : ProjectedBoundingBox :=
  let north := tile2lat tileY zoom
  let south := tile2lat (tileY + 1) zoom
  let west := tile2lon tileX zoom
  let east := tile2lon (tileX + 1) zoom
  let sw := lonLatToWebMercator west south
  let ne := lonLatToWebMercator east north
  { minX := sw.1, minY := sw.2, maxX := ne.1, maxY := ne.2 }

/-- Modelled from the spec's wording of the algorithm (section 4.1), for
comparison with the source-derived `computeProjectedBBox`: longitudes
`col / 2^zoom * 360 - 180`; latitudes `(180/π)·atan(0.5·(e^n − e^(−n)))`
with `n = π − 2π·row/2^zoom`; projection `x = lon·R·π/180` and
`y = R·ln(tan(π/4 + lat·π/360))` after clamping `lat` to
`[-89.9999, 89.9999]`; assembly `minX = west.x, minY = south.y,
maxX = east.x, maxY = north.y`. -/
noncomputable def specProjectedBBox (zoom col row : ℝ) : ProjectedBoundingBox :=
  let lon := fun (c : ℝ) => c / (2 : ℝ) ^ zoom * 360 - 180
  let lat := fun (r : ℝ) =>
    let n := Real.pi - 2 * Real.pi * r / (2 : ℝ) ^ zoom
    (180 / Real.pi) * Real.arctan (0.5 * (Real.exp n - Real.exp (-n)))
  let projX := fun (l : ℝ) => l * EARTH_RADIUS * Real.pi / 180
  let projY := fun (l : ℝ) =>
    let clamped := max (min l 89.9999) (-89.9999)
    EARTH_RADIUS * Real.log (Real.tan (Real.pi / 4 + clamped * Real.pi / 360))
  { minX := projX (lon col), minY := projY (lat (row + 1)),
    maxX := projX (lon (col + 1)), maxY := projY (lat row) }

/-- Body of an HTTP response produced by the handler: either a JSON error
object with a single `error` field, or raw bytes relayed from upstream. -/
inductive RespBody where
  | jsonError (error : String)
  | bytes (b : List ℕ)
  deriving DecidableEq

/-- Response produced by the handler, with the headers it sets. -/
structure HttpResponse where
  status : ℕ
  contentType : Option String
  cacheControl : Option String
  body : RespBody
  deriving DecidableEq

/-- Path parameters as destructured from `context.params`; `none` models an
absent (`undefined`) segment. -/
structure TileParams where
  z : Option String
  x : Option String
  y : Option String

/-- The upstream `fetch` `Response` as far as the handler inspects it:
status code, optional body stream, and the result of `text()` (`none`
models a rejected `text()` call, which the handler catches into `""`). -/
structure UpstreamResponse where
  status : ℕ
  body : Option (List ℕ)
  textResult : Option String

/-- `Response.ok` of the fetch API: status in the 2xx range. -/
def UpstreamResponse.ok (u : UpstreamResponse) : Bool :=
  decide (200 ≤ u.status ∧ u.status ≤ 299)

/-- The upstream export request assembled by the handler, recorded by
query parameter (the code concatenates them into a URL string, with the
bbox value passed through `encodeURIComponent`) together with the fetch
options it sets (`Accept` header and `cache` mode). -/
structure ExportRequest where
  serviceUrl : String
  bbox : String
  bboxSR : ℕ
  imageSR : ℕ
  sizeW : ℕ
  sizeH : ℕ
  format : String
  transparent : Bool
  f : String
  accept : String
  cache : String

/-- The upstream export request the handler assembles (lines 53-66),
recorded structurally by query parameter; `numToStr` is the
number-to-string conversion used by `Array.prototype.join`. -/
noncomputable def tileExportRequest (numToStr : ℝ → String) (serviceUrl : String)
    (zoom tileX tileY : ℝ) : ExportRequest :=
  let bb := computeProjectedBBox zoom tileX tileY
  { serviceUrl := serviceUrl
    bbox := String.intercalate "," ([bb.minX, bb.minY, bb.maxX, bb.maxY].map numToStr)
    bboxSR := 102100
    imageSR := 102100
    sizeW := TILE_SIZE
    sizeH := TILE_SIZE
    format := "png32"
    transparent := true
    f := "image"
    accept := "image/png"
    cache := "no-store" }

/-- The `GET` route handler. The outbound `fetch` is an oracle from
requests to either a network-level rejection (`Except.error`) or an
`UpstreamResponse`. The result pairs the handler outcome
(`Except.error ()` models an uncaught exception propagating out of the
handler, since the `await fetch` has no `try/catch`) with the number of
outbound fetch calls made. -/
noncomputable def GET (num : String → Option ℝ) (numToStr : ℝ → String)
    (serviceUrl : String)
    (fetchOracle : ExportRequest → Except Unit UpstreamResponse)
    (p : TileParams) : (Except Unit HttpResponse) × ℕ :=
  match p.z, p.x, p.y with
  | some zs, some xs, some ys =>
    match num zs, num xs, num ys with
    | some zoom, some tileX, some tileY =>
      let req := tileExportRequest numToStr serviceUrl zoom tileX tileY
      match fetchOracle req with
      | Except.error e => (Except.error e, 1)
      | Except.ok upstream =>
        if upstream.ok = false ∨ upstream.body = none then
          let message := upstream.textResult.getD ""
          (Except.ok
            { status := if upstream.status ≠ 0 then upstream.status else 502
              contentType := some "application/json"
              cacheControl := none
              body := RespBody.jsonError
                (if message ≠ "" then message
                 else "Upstream error " ++ toString upstream.status) }, 1)
        else
          (Except.ok
            { status := upstream.status
              contentType := some "image/png"
              cacheControl := some "public, max-age=600"
              body := RespBody.bytes (upstream.body.getD []) }, 1)
    | _, _, _ =>
      (Except.ok
        { status := 400
          contentType := some "application/json"
          cacheControl := none
          body := RespBody.jsonError "Invalid tile coordinates" }, 0)
  | _, _, _ =>
    (Except.ok
      { status := 400
        contentType := some "application/json"
        cacheControl := none
        body := RespBody.jsonError "Missing tile coordinates" }, 0)

/-- The 400 response for absent path parameters. -/
def missingResponse : HttpResponse :=
  { status := 400
    contentType := some "application/json"
    cacheControl := none
    body := RespBody.jsonError "Missing tile coordinates" }

/-- The 400 response for parameters that do not parse to a finite number. -/
def invalidResponse : HttpResponse :=
  { status := 400
    contentType := some "application/json"
    cacheControl := none
    body := RespBody.jsonError "Invalid tile coordinates" }

/-- Parse oracle used in concrete witnesses: the string "bad" fails to
parse to a finite number; every other string parses to 0. -/
noncomputable def numOracle : String → Option ℝ :=
  fun s => if s = "bad" then none else some 0

/-- Number formatting oracle used in concrete witnesses. -/
def strOracle : ℝ → String := fun _ => "0"

/-- Fetch oracle that rejects at the network level. -/
def fetchReject : ExportRequest → Except Unit UpstreamResponse :=
  fun _ => Except.error ()

/-- Fetch oracle returning a fixed upstream response. -/
def fetchConst (u : UpstreamResponse) : ExportRequest → Except Unit UpstreamResponse :=
  fun _ => Except.ok u

/-- C1: for every finite numeric zoom, column and row, the projected
bounding box computed by the route (tile2lon/tile2lat/lonLatToWebMercator,
assembled as in the handler) coincides with the algorithm as the spec
states it: edge longitudes at column and column+1, edge latitudes at row
and row+1 via the atan-of-sinh formula, corners projected with
x = lon·R·π/180 and y = R·ln(tan(π/4 + lat·π/360)) after clamping, and
minX = west.x, minY = south.y, maxX = east.x, maxY = north.y. -/
theorem C1_bbox_algorithm_matches_spec (zoom col row : ℝ) :
    computeProjectedBBox zoom col row = specProjectedBBox zoom col row := by
  unfold computeProjectedBBox specProjectedBBox tile2lon tile2lat lonLatToWebMercator
    ORIGIN_SHIFT
  ext <;> simp only
  · ring
  · have h : (90 + max (min ((180 / Real.pi) *
        Real.arctan (0.5 * (Real.exp (Real.pi - 2 * Real.pi * (row + 1) / (2 : ℝ) ^ zoom) -
          Real.exp (-(Real.pi - 2 * Real.pi * (row + 1) / (2 : ℝ) ^ zoom))))) 89.9999)
        (-89.9999)) * Real.pi / 360
      = Real.pi / 4 + max (min ((180 / Real.pi) *
        Real.arctan (0.5 * (Real.exp (Real.pi - 2 * Real.pi * (row + 1) / (2 : ℝ) ^ zoom) -
          Real.exp (-(Real.pi - 2 * Real.pi * (row + 1) / (2 : ℝ) ^ zoom))))) 89.9999)
        (-89.9999) * Real.pi / 360 := by ring
    rw [h]; ring
  · ring
  · have h : (90 + max (min ((180 / Real.pi) *
        Real.arctan (0.5 * (Real.exp (Real.pi - 2 * Real.pi * row / (2 : ℝ) ^ zoom) -
          Real.exp (-(Real.pi - 2 * Real.pi * row / (2 : ℝ) ^ zoom))))) 89.9999)
        (-89.9999)) * Real.pi / 360
      = Real.pi / 4 + max (min ((180 / Real.pi) *
        Real.arctan (0.5 * (Real.exp (Real.pi - 2 * Real.pi * row / (2 : ℝ) ^ zoom) -
          Real.exp (-(Real.pi - 2 * Real.pi * row / (2 : ℝ) ^ zoom))))) 89.9999)
        (-89.9999) * Real.pi / 360 := by ring
    rw [h]; ring

/-- C2: a request missing any of z, x, y is answered 400 with body
error "Missing tile coordinates"; a request whose parameters are all
present but where some does not parse to a finite number is answered 400
with error "Invalid tile coordinates"; in both cases zero outbound fetch
calls are made. -/
theorem C2_missing_and_invalid_rejected_locally
    (num : String → Option ℝ) (numToStr : ℝ → String) (serviceUrl : String)
    (fetchOracle : ExportRequest → Except Unit UpstreamResponse) (p : TileParams) :
    ((p.z = none ∨ p.x = none ∨ p.y = none) →
      GET num numToStr serviceUrl fetchOracle p = (Except.ok missingResponse, 0)) ∧
    (∀ zs xs ys, p.z = some zs → p.x = some xs → p.y = some ys →
      (num zs = none ∨ num xs = none ∨ num ys = none) →
      GET num numToStr serviceUrl fetchOracle p = (Except.ok invalidResponse, 0)) := by
  obtain ⟨z, x, y⟩ := p
  constructor
  · intro h
    cases z <;> cases x <;> cases y <;>
      simp_all [GET, missingResponse]
  · rintro zs xs ys rfl rfl rfl h
    rcases h with h | h | h
    · simp [GET, h, invalidResponse]
    · cases hz : num zs <;> simp [GET, h, hz, invalidResponse]
    · cases hz : num zs <;> cases hx : num xs <;>
        simp [GET, h, hz, hx, invalidResponse]

/-- Witness for C2: a request with no z segment, and a request whose x
segment fails numeric parsing, at concrete inputs. -/
theorem C2_witness :
    GET numOracle strOracle "" fetchReject ⟨none, some "1", some "2"⟩
        = (Except.ok missingResponse, 0) ∧
    GET numOracle strOracle "" fetchReject ⟨some "bad", some "1", some "2"⟩
        = (Except.ok invalidResponse, 0) :=
  ⟨(C2_missing_and_invalid_rejected_locally numOracle strOracle "" fetchReject
      ⟨none, some "1", some "2"⟩).1 (Or.inl rfl),
   (C2_missing_and_invalid_rejected_locally numOracle strOracle "" fetchReject
      ⟨some "bad", some "1", some "2"⟩).2 "bad" "1" "2" rfl rfl rfl
      (Or.inl (by simp [numOracle]))⟩

/-- C3: when the upstream response is not ok (non-2xx) or has no body,
the handler answers with the upstream status (502 when that status is 0)
and a JSON error whose text is the nonempty upstream error text when the
extraction produced one, and the generic "Upstream error <status>"
message otherwise. -/
theorem C3_upstream_failure_mapped
    (num : String → Option ℝ) (numToStr : ℝ → String) (serviceUrl : String)
    (fetchOracle : ExportRequest → Except Unit UpstreamResponse)
    (zs xs ys : String) (zoom tileX tileY : ℝ)
    (hz : num zs = some zoom) (hx : num xs = some tileX) (hy : num ys = some tileY)
    (u : UpstreamResponse)
    (hf : fetchOracle (tileExportRequest numToStr serviceUrl zoom tileX tileY)
        = Except.ok u)
    (hfail : u.ok = false ∨ u.body = none) :
    GET num numToStr serviceUrl fetchOracle ⟨some zs, some xs, some ys⟩ =
      (Except.ok
        { status := if u.status ≠ 0 then u.status else 502
          contentType := some "application/json"
          cacheControl := none
          body := RespBody.jsonError
            (if u.textResult.getD "" ≠ "" then u.textResult.getD ""
             else "Upstream error " ++ toString u.status) }, 1) := by
  simp only [GET, hz, hx, hy, hf]
  rw [if_pos hfail]

/-- Witness for C3: a 404 upstream response without body and with error
text "tile not found" is relayed as a 404 JSON error with that text. -/
theorem C3_witness :
    GET numOracle strOracle "" (fetchConst ⟨404, none, some "tile not found"⟩)
        ⟨some "1", some "1", some "1"⟩ =
      (Except.ok
        { status := 404
          contentType := some "application/json"
          cacheControl := none
          body := RespBody.jsonError "tile not found" }, 1) := by
  have h := C3_upstream_failure_mapped numOracle strOracle ""
    (fetchConst ⟨404, none, some "tile not found"⟩) "1" "1" "1" 0 0 0
    (by simp [numOracle]) (by simp [numOracle]) (by simp [numOracle])
    ⟨404, none, some "tile not found"⟩ rfl (Or.inr rfl)
  simpa using h

/-- C4: when the upstream responds 2xx with a body, the handler relays
the upstream status, sets Content-Type image/png and Cache-Control
public, max-age=600, and forwards the upstream bytes unchanged. -/
theorem C4_upstream_success_forwarded
    (num : String → Option ℝ) (numToStr : ℝ → String) (serviceUrl : String)
    (fetchOracle : ExportRequest → Except Unit UpstreamResponse)
    (zs xs ys : String) (zoom tileX tileY : ℝ)
    (hz : num zs = some zoom) (hx : num xs = some tileX) (hy : num ys = some tileY)
    (u : UpstreamResponse) (payload : List ℕ)
    (h2xx : 200 ≤ u.status ∧ u.status ≤ 299) (hbody : u.body = some payload)
    (hf : fetchOracle (tileExportRequest numToStr serviceUrl zoom tileX tileY)
        = Except.ok u) :
    GET num numToStr serviceUrl fetchOracle ⟨some zs, some xs, some ys⟩ =
      (Except.ok
        { status := u.status
          contentType := some "image/png"
          cacheControl := some "public, max-age=600"
          body := RespBody.bytes payload }, 1) := by
  have hok : u.ok = true := by
    simp only [UpstreamResponse.ok, decide_eq_true_eq]
    exact h2xx
  simp only [GET, hz, hx, hy, hf]
  rw [if_neg (by simp [hok, hbody])]
  simp [hbody]

/-- Witness for C4: a 200 upstream response with byte payload 1,2,3 is
forwarded byte-for-byte with the PNG content type and cache header. -/
theorem C4_witness :
    GET numOracle strOracle "" (fetchConst ⟨200, some [1, 2, 3], none⟩)
        ⟨some "1", some "1", some "1"⟩ =
      (Except.ok
        { status := 200
          contentType := some "image/png"
          cacheControl := some "public, max-age=600"
          body := RespBody.bytes [1, 2, 3] }, 1) :=
  C4_upstream_success_forwarded numOracle strOracle ""
    (fetchConst ⟨200, some [1, 2, 3], none⟩) "1" "1" "1" 0 0 0
    (by simp [numOracle]) (by simp [numOracle]) (by simp [numOracle])
    ⟨200, some [1, 2, 3], none⟩ [1, 2, 3] (by decide) rfl rfl

/-- Counterexample for C5 as stated: at a concrete valid request whose
outbound fetch rejects, the handler does not produce a server error
response; the rejection propagates out of the handler uncaught (there is
no try/catch around the await fetch), modelled as Except.error. -/
theorem C5_counterexample :
    GET numOracle strOracle "" fetchReject ⟨some "1", some "2", some "3"⟩
      = (Except.error (), 1) := by
  simp [GET, numOracle, fetchReject]

/-- C5 amended: the upstream call is attempted exactly once per valid
request (no retry), and when the fetch rejects the handler does not catch
the rejection: it propagates out of the handler (the serving framework,
not this code, turns it into a generic server error). -/
theorem C5_amended_single_fetch_and_propagation
    (num : String → Option ℝ) (numToStr : ℝ → String) (serviceUrl : String)
    (fetchOracle : ExportRequest → Except Unit UpstreamResponse)
    (zs xs ys : String) (zoom tileX tileY : ℝ)
    (hz : num zs = some zoom) (hx : num xs = some tileX) (hy : num ys = some tileY) :
    (GET num numToStr serviceUrl fetchOracle ⟨some zs, some xs, some ys⟩).2 = 1 ∧
    (fetchOracle (tileExportRequest numToStr serviceUrl zoom tileX tileY)
        = Except.error () →
      (GET num numToStr serviceUrl fetchOracle ⟨some zs, some xs, some ys⟩).1
        = Except.error ()) := by
  constructor
  · simp only [GET, hz, hx, hy]
    cases hf : fetchOracle (tileExportRequest numToStr serviceUrl zoom tileX tileY) with
    | error e => rfl
    | ok u =>
      by_cases hcond : u.ok = false ∨ u.body = none <;> simp [hcond]
  · intro hf
    simp only [GET, hz, hx, hy, hf]

/-- Witness for C5 amended: concrete valid request with a rejecting
fetch oracle. -/
theorem C5_witness :
    (GET numOracle strOracle "" fetchReject ⟨some "5", some "6", some "7"⟩).2 = 1 ∧
    (GET numOracle strOracle "" fetchReject ⟨some "5", some "6", some "7"⟩).1
      = Except.error () := by
  have h := C5_amended_single_fetch_and_propagation numOracle strOracle "" fetchReject
    "5" "6" "7" 0 0 0 (by simp [numOracle]) (by simp [numOracle]) (by simp [numOracle])
  exact ⟨h.1, h.2 rfl⟩

/-- C6: the export request is built from the projected bbox with bbox the
comma-joined minX,minY,maxX,maxY string, a fixed 256 by 256 size, spatial
reference 102100 for bboxSR and imageSR, transparent png32 format, and
cache mode no-store; and on a valid request the handler consults the
fetch oracle only at exactly this request. -/
theorem C6_export_request_parameters
    (num : String → Option ℝ) (numToStr : ℝ → String) (serviceUrl : String)
    (zs xs ys : String) (zoom tileX tileY : ℝ)
    (hz : num zs = some zoom) (hx : num xs = some tileX) (hy : num ys = some tileY) :
    ((tileExportRequest numToStr serviceUrl zoom tileX tileY).bbox =
      numToStr (computeProjectedBBox zoom tileX tileY).minX ++ "," ++
      numToStr (computeProjectedBBox zoom tileX tileY).minY ++ "," ++
      numToStr (computeProjectedBBox zoom tileX tileY).maxX ++ "," ++
      numToStr (computeProjectedBBox zoom tileX tileY).maxY) ∧
    (tileExportRequest numToStr serviceUrl zoom tileX tileY).sizeW = 256 ∧
    (tileExportRequest numToStr serviceUrl zoom tileX tileY).sizeH = 256 ∧
    (tileExportRequest numToStr serviceUrl zoom tileX tileY).bboxSR = 102100 ∧
    (tileExportRequest numToStr serviceUrl zoom tileX tileY).imageSR = 102100 ∧
    (tileExportRequest numToStr serviceUrl zoom tileX tileY).format = "png32" ∧
    (tileExportRequest numToStr serviceUrl zoom tileX tileY).transparent = true ∧
    (tileExportRequest numToStr serviceUrl zoom tileX tileY).cache = "no-store" ∧
    ∀ f1 f2 : ExportRequest → Except Unit UpstreamResponse,
      f1 (tileExportRequest numToStr serviceUrl zoom tileX tileY) =
        f2 (tileExportRequest numToStr serviceUrl zoom tileX tileY) →
      GET num numToStr serviceUrl f1 ⟨some zs, some xs, some ys⟩ =
        GET num numToStr serviceUrl f2 ⟨some zs, some xs, some ys⟩ := by
  refine ⟨?_, rfl, rfl, rfl, rfl, rfl, rfl, rfl, ?_⟩
  · simp [tileExportRequest, String.intercalate, String.intercalate.go]
  · intro f1 f2 h
    simp only [GET, hz, hx, hy, h]

/-- Witness for C6 at concrete inputs. -/
theorem C6_witness :
    ((tileExportRequest strOracle "" 0 0 0).bbox =
      strOracle (computeProjectedBBox 0 0 0).minX ++ "," ++
      strOracle (computeProjectedBBox 0 0 0).minY ++ "," ++
      strOracle (computeProjectedBBox 0 0 0).maxX ++ "," ++
      strOracle (computeProjectedBBox 0 0 0).maxY) ∧
    (tileExportRequest strOracle "" 0 0 0).sizeW = 256 ∧
    (tileExportRequest strOracle "" 0 0 0).cache = "no-store" ∧
    GET numOracle strOracle "" fetchReject ⟨some "8", some "9", some "1"⟩ =
      GET numOracle strOracle "" fetchReject ⟨some "8", some "9", some "1"⟩ := by
  have h := C6_export_request_parameters numOracle strOracle "" "8" "9" "1" 0 0 0
    (by simp [numOracle]) (by simp [numOracle]) (by simp [numOracle])
  exact ⟨h.1, h.2.1, h.2.2.2.2.2.2.2.1, h.2.2.2.2.2.2.2.2 fetchReject fetchReject rfl⟩

/-- The coefficient `0.5 * (exp n - exp (-n))` used in `tile2lat` is the
hyperbolic sine. -/
theorem sinh_half_term (n : ℝ) : 0.5 * (Real.exp n - Real.exp (-n)) = Real.sinh n := by
  rw [Real.sinh_eq]; ring

/-- Half-angle form of the Mercator tangent argument. -/
theorem tan_quarter_add_half (t : ℝ) (h1 : -(π / 2) < t) (h2 : t < π / 2) :
    Real.tan (π / 4 + t / 2) = (1 + Real.sin t) / Real.cos t := by
  have hpi := Real.pi_pos
  have hc4 : 0 < Real.cos (π / 4 + t / 2) := by
    apply Real.cos_pos_of_mem_Ioo; constructor <;> [linarith; linarith]
  have hc4' : 0 < Real.cos (π / 4 - t / 2) := by
    apply Real.cos_pos_of_mem_Ioo; constructor <;> [linarith; linarith]
  have hsub : 0 < Real.cos (t / 2) - Real.sin (t / 2) := by
    have h := hc4
    rw [Real.cos_add, Real.cos_pi_div_four, Real.sin_pi_div_four] at h
    nlinarith [Real.sqrt_pos.mpr (by norm_num : (0:ℝ) < 2)]
  have hadd : 0 < Real.cos (t / 2) + Real.sin (t / 2) := by
    have h := hc4'
    rw [Real.cos_sub, Real.cos_pi_div_four, Real.sin_pi_div_four] at h
    nlinarith [Real.sqrt_pos.mpr (by norm_num : (0:ℝ) < 2)]
  have hct : 0 < Real.cos t := by
    apply Real.cos_pos_of_mem_Ioo; constructor <;> [linarith; linarith]
  have ht2 : t = 2 * (t / 2) := by ring
  have hsin_t : Real.sin t = 2 * Real.sin (t / 2) * Real.cos (t / 2) := by
    nth_rewrite 1 [ht2]; exact Real.sin_two_mul (t / 2)
  have hcos_t : Real.cos t = Real.cos (t / 2) ^ 2 - Real.sin (t / 2) ^ 2 := by
    nth_rewrite 1 [ht2]; exact Real.cos_two_mul' (t / 2)
  have hpyth := Real.sin_sq_add_cos_sq (t / 2)
  have hden : Real.sqrt 2 / 2 * Real.cos (t / 2) - Real.sqrt 2 / 2 * Real.sin (t / 2) ≠ 0 := by
    have h := hc4
    rw [Real.cos_add, Real.cos_pi_div_four, Real.sin_pi_div_four] at h
    linarith
  have hden2 : Real.cos (t / 2) ^ 2 - Real.sin (t / 2) ^ 2 ≠ 0 := by nlinarith
  rw [Real.tan_eq_sin_div_cos, Real.sin_add, Real.cos_add, Real.cos_pi_div_four,
    Real.sin_pi_div_four, hsin_t, hcos_t]
  rw [div_eq_div_iff hden hden2]
  linear_combination (Real.sqrt 2 / 2 * (Real.cos (t / 2) - Real.sin (t / 2))) * hpyth

/-- Inverse Gudermannian identity: the log-tan Mercator formula applied to
the latitude angle `arctan (sinh n)` recovers `n`. -/
theorem log_tan_gudermann (n : ℝ) :
    Real.log (Real.tan (π / 4 + Real.arctan (Real.sinh n) / 2)) = n := by
  have h1 := Real.neg_pi_div_two_lt_arctan (Real.sinh n)
  have h2 := Real.arctan_lt_pi_div_two (Real.sinh n)
  rw [tan_quarter_add_half _ h1 h2, Real.sin_arctan, Real.cos_arctan]
  have hsq : Real.sqrt (1 + Real.sinh n ^ 2) = Real.cosh n := by
    rw [show (1 : ℝ) + Real.sinh n ^ 2 = Real.cosh n ^ 2 by rw [Real.cosh_sq]; ring]
    exact Real.sqrt_sq (Real.cosh_pos n).le
  rw [hsq]
  have hc := Real.cosh_pos n
  have hval : (1 + Real.sinh n / Real.cosh n) / (1 / Real.cosh n)
      = Real.cosh n + Real.sinh n := by
    field_simp
  rw [hval, Real.cosh_add_sinh, Real.log_exp]

/-- Numeric bound used for the clamp analysis. -/
theorem exp_pi_upper : Real.exp π < 23.1408 := by
  have h3 : Real.exp 3 < 20.08554 := by
    have h := Real.exp_one_lt_d9
    have hpos := Real.exp_pos 1
    calc Real.exp 3 = Real.exp 1 * Real.exp 1 * Real.exp 1 := by
          rw [← Real.exp_add, ← Real.exp_add]; norm_num
      _ < 20.08554 := by nlinarith
  have hfrac : Real.exp 0.141593 < 1.152112 := by
    have hb := Real.exp_bound' (by norm_num : (0:ℝ) ≤ 0.141593)
      (by norm_num : (0.141593:ℝ) ≤ 1) (by norm_num : (0:ℕ) < 4)
    have : (∑ m ∈ Finset.range 4, (0.141593:ℝ) ^ m / m.factorial) +
        (0.141593:ℝ) ^ 4 * (4 + 1) / (Nat.factorial 4 * 4) < 1.152112 := by
      simp [Finset.sum_range_succ, Nat.factorial]
      norm_num
    linarith
  have hsplit : Real.exp 3.141593 = Real.exp 3 * Real.exp 0.141593 := by
    rw [← Real.exp_add]; norm_num
  have hmono : Real.exp π < Real.exp 3.141593 :=
    Real.exp_lt_exp.mpr (by linarith [Real.pi_lt_d6])
  have hpos3 := Real.exp_pos 3
  have hposf := Real.exp_pos 0.141593
  calc Real.exp π < Real.exp 3 * Real.exp 0.141593 := by rw [← hsplit]; exact hmono
    _ < 20.08554 * 1.152112 := by nlinarith
    _ < 23.1408 := by norm_num

/-- Numeric bound on `sinh π`. -/
theorem sinh_pi_upper : Real.sinh π < 11.5488 := by
  have hneg : (0.0432 : ℝ) < Real.exp (-π) := by
    rw [Real.exp_neg]
    have h := exp_pi_upper
    have hpos := Real.exp_pos π
    rw [lt_inv_comm₀] <;> nlinarith
  rw [Real.sinh_eq]
  have h := exp_pi_upper
  linarith

/-- Numeric bound on the tangent of the `4.94` degree complement angle. -/
theorem tan_edge_angle_upper : Real.tan (4.94 * π / 180) < 0.08655 := by
  have hpi := Real.pi_pos
  have ha0 : 0 < 4.94 * π / 180 := by positivity
  have ha1 : 4.94 * π / 180 < 0.086220 := by
    have h := Real.pi_lt_d6
    nlinarith
  have hs : Real.sin (4.94 * π / 180) < 0.086220 :=
    lt_trans (Real.sin_lt ha0) ha1
  have hcge : (0.996283 : ℝ) < Real.cos (4.94 * π / 180) := by
    have h := @Real.one_sub_sq_div_two_le_cos (4.94 * π / 180)
    nlinarith
  rw [Real.tan_eq_sin_div_cos]
  rw [div_lt_iff₀ (by linarith)]
  nlinarith [Real.sin_le ha0.le]

/-- The maximal tile latitude angle stays short of 85.06 degrees. -/
theorem arctan_sinh_pi_lt : Real.arctan (Real.sinh π) < 85.06 * π / 180 := by
  have hpi := Real.pi_pos
  have ha0 : 0 < 4.94 * π / 180 := by positivity
  have ha2 : 4.94 * π / 180 < π / 2 := by nlinarith
  have htanpos : 0 < Real.tan (4.94 * π / 180) :=
    Real.tan_pos_of_pos_of_lt_pi_div_two ha0 ha2
  have hsinhpos : 0 < Real.sinh π := by
    rw [Real.sinh_pos_iff]; exact hpi
  have hprod : Real.sinh π * Real.tan (4.94 * π / 180) < 1 := by
    nlinarith [sinh_pi_upper, tan_edge_angle_upper]
  have hlt : Real.sinh π < (Real.tan (4.94 * π / 180))⁻¹ := by
    rw [inv_eq_one_div, lt_div_iff₀ htanpos]
    linarith
  have hang : 85.06 * π / 180 = π / 2 - 4.94 * π / 180 := by ring
  rw [hang]
  calc Real.arctan (Real.sinh π)
      < Real.arctan (Real.tan (π / 2 - 4.94 * π / 180)) := by
        apply Real.arctan_strictMono
        rw [Real.tan_pi_div_two_sub]
        exact hlt
    _ = π / 2 - 4.94 * π / 180 := Real.arctan_tan (by linarith) (by linarith)

/-- Monotone bound on the tile latitude angle over `|n| ≤ π`. -/
theorem abs_arctan_sinh_le (n : ℝ) (hn : |n| ≤ π) :
    |Real.arctan (Real.sinh n)| ≤ Real.arctan (Real.sinh π) := by
  rw [abs_le] at hn ⊢
  constructor
  · have h := Real.arctan_strictMono.monotone (Real.sinh_le_sinh.mpr hn.1)
    rwa [Real.sinh_neg, Real.arctan_neg] at h
  · exact Real.arctan_strictMono.monotone (Real.sinh_le_sinh.mpr hn.2)

/-- For `|n| ≤ π` the clamp in `lonLatToWebMercator` is inactive on the
tile latitude and the projected y coordinate is exactly `R · n`. -/
theorem mercator_y_formula (lon n : ℝ) (hn : |n| ≤ π) :
    (lonLatToWebMercator lon
      ((180 / π) * Real.arctan (0.5 * (Real.exp n - Real.exp (-n))))).2
    = EARTH_RADIUS * n := by
  have hpi := Real.pi_pos
  rw [sinh_half_term]
  set t := Real.arctan (Real.sinh n) with hts
  have hta := abs_arctan_sinh_le n hn
  have htb := arctan_sinh_pi_lt
  have hbound : |180 / π * t| < 85.06 := by
    rw [abs_mul, abs_of_pos (by positivity : (0:ℝ) < 180 / π)]
    calc 180 / π * |t| ≤ 180 / π * Real.arctan (Real.sinh π) := by
          apply mul_le_mul_of_nonneg_left hta (by positivity)
      _ < 180 / π * (85.06 * π / 180) := by
          apply mul_lt_mul_of_pos_left htb (by positivity)
      _ = 85.06 := by field_simp; ring
  rw [abs_lt] at hbound
  have hclamp : max (min (180 / π * t) 89.9999) (-89.9999) = 180 / π * t := by
    rw [min_eq_left (by linarith), max_eq_left (by linarith)]
  show Real.log (Real.tan ((90 + max (min (180 / π * t) 89.9999) (-89.9999)) * π / 360))
      * EARTH_RADIUS = EARTH_RADIUS * n
  rw [hclamp]
  have harg : (90 + 180 / π * t) * π / 360 = π / 4 + t / 2 := by
    field_simp; ring
  rw [harg, log_tan_gudermann n, mul_comm]

/-- Unfolding of `tile2lat`. -/
theorem tile2lat_eq (y z : ℝ) :
    tile2lat y z = (180 / π) * Real.arctan (0.5 *
      (Real.exp (π - 2 * π * y / (2:ℝ) ^ z) -
       Real.exp (-(π - 2 * π * y / (2:ℝ) ^ z)))) := rfl

/-- The Mercator pole parameter of a row in `[0, 2^z]` lies in `[-π, π]`. -/
theorem abs_n_le (z r : ℝ) (h0 : 0 ≤ r) (h1 : r ≤ (2:ℝ) ^ z) :
    |π - 2 * π * r / (2:ℝ) ^ z| ≤ π := by
  have hpi := Real.pi_pos
  have hp : (0:ℝ) < (2:ℝ) ^ z := Real.rpow_pos_of_pos (by norm_num) z
  have hfrac0 : 0 ≤ r / (2:ℝ) ^ z := by positivity
  have hfrac1 : r / (2:ℝ) ^ z ≤ 1 := (div_le_one hp).mpr h1
  rw [abs_le]
  have key := mul_le_mul_of_nonneg_left hfrac1 (by positivity : (0:ℝ) ≤ 2 * π)
  have key2 := mul_nonneg (by positivity : (0:ℝ) ≤ 2 * π) hfrac0
  have heq : 2 * π * r / (2:ℝ) ^ z = 2 * π * (r / (2:ℝ) ^ z) := by ring
  rw [heq]
  constructor <;> linarith [key, key2]

/-- `minX` of the computed bbox, unfolded. -/
theorem bbox_minX (zoom tx ty : ℝ) :
    (computeProjectedBBox zoom tx ty).minX = tile2lon tx zoom * ORIGIN_SHIFT / 180 := rfl

/-- `maxX` of the computed bbox, unfolded. -/
theorem bbox_maxX (zoom tx ty : ℝ) :
    (computeProjectedBBox zoom tx ty).maxX = tile2lon (tx + 1) zoom * ORIGIN_SHIFT / 180 := rfl

/-- `minY` of the computed bbox, unfolded. -/
theorem bbox_minY (zoom tx ty : ℝ) :
    (computeProjectedBBox zoom tx ty).minY
      = (lonLatToWebMercator (tile2lon tx zoom) (tile2lat (ty + 1) zoom)).2 := rfl

/-- `maxY` of the computed bbox, unfolded. -/
theorem bbox_maxY (zoom tx ty : ℝ) :
    (computeProjectedBBox zoom tx ty).maxY
      = (lonLatToWebMercator (tile2lon (tx + 1) zoom) (tile2lat ty zoom)).2 := rfl

/-- C7: for all integer zoom ≥ 0 and 0 ≤ column, row < 2^zoom the computed
projected bounding box is non-degenerate (minX < maxX and minY < maxY) and
horizontally adjacent tiles share the edge coordinate exactly: tile
(z, x, y)'s maxX equals tile (z, x+1, y)'s minX. -/
theorem C7_nondegenerate_and_adjacent (z x y : ℕ)
    (hx : x < 2 ^ z) (hy : y < 2 ^ z) :
    (computeProjectedBBox (z : ℝ) (x : ℝ) (y : ℝ)).minX
        < (computeProjectedBBox (z : ℝ) (x : ℝ) (y : ℝ)).maxX ∧
    (computeProjectedBBox (z : ℝ) (x : ℝ) (y : ℝ)).minY
        < (computeProjectedBBox (z : ℝ) (x : ℝ) (y : ℝ)).maxY ∧
    (computeProjectedBBox (z : ℝ) (x : ℝ) (y : ℝ)).maxX
        = (computeProjectedBBox (z : ℝ) ((x + 1 : ℕ) : ℝ) (y : ℝ)).minX := by
  have hpi := Real.pi_pos
  have hP : (0:ℝ) < (2:ℝ) ^ ((z:ℕ):ℝ) := Real.rpow_pos_of_pos (by norm_num) _
  have hpow : (2:ℝ) ^ ((z:ℕ):ℝ) = (((2:ℕ) ^ z : ℕ) : ℝ) := by
    rw [Real.rpow_natCast]; push_cast; ring
  have hR : (0:ℝ) < EARTH_RADIUS := by unfold EARTH_RADIUS; norm_num
  have hOS : (0:ℝ) < ORIGIN_SHIFT := by
    unfold ORIGIN_SHIFT EARTH_RADIUS; positivity
  refine ⟨?_, ?_, ?_⟩
  · rw [bbox_minX, bbox_maxX]
    have hlon : tile2lon (x : ℝ) (z : ℝ) < tile2lon ((x : ℝ) + 1) (z : ℝ) := by
      unfold tile2lon
      have hfr : (x : ℝ) / (2:ℝ) ^ ((z:ℕ):ℝ) < ((x : ℝ) + 1) / (2:ℝ) ^ ((z:ℕ):ℝ) :=
        (div_lt_div_right hP).mpr (by linarith)
      nlinarith
    rw [div_lt_div_right (by norm_num : (0:ℝ) < 180)]
    exact mul_lt_mul_of_pos_right hlon hOS
  · rw [bbox_minY, bbox_maxY, tile2lat_eq, tile2lat_eq]
    have hy1 : (y : ℝ) + 1 ≤ (2:ℝ) ^ ((z:ℕ):ℝ) := by
      rw [hpow]; exact_mod_cast Nat.succ_le_of_lt hy
    have hy0 : (y : ℝ) ≤ (2:ℝ) ^ ((z:ℕ):ℝ) := by linarith
    rw [mercator_y_formula _ _ (abs_n_le ((z:ℕ):ℝ) ((y:ℝ) + 1) (by positivity) hy1),
        mercator_y_formula _ _ (abs_n_le ((z:ℕ):ℝ) (y:ℝ) (by positivity) hy0)]
    apply mul_lt_mul_of_pos_left _ hR
    have hfr : 2 * π * (y : ℝ) / (2:ℝ) ^ ((z:ℕ):ℝ)
        < 2 * π * ((y : ℝ) + 1) / (2:ℝ) ^ ((z:ℕ):ℝ) :=
      (div_lt_div_right hP).mpr (by nlinarith)
    linarith
  · rw [bbox_maxX, bbox_minX]
    push_cast
    ring

/-- Witness for C7 at zoom 1, column 0, row 0. -/
theorem C7_witness :
    (0 : ℕ) < 2 ^ 1 ∧
    ((computeProjectedBBox ((1:ℕ) : ℝ) ((0:ℕ) : ℝ) ((0:ℕ) : ℝ)).minX
        < (computeProjectedBBox ((1:ℕ) : ℝ) ((0:ℕ) : ℝ) ((0:ℕ) : ℝ)).maxX ∧
    (computeProjectedBBox ((1:ℕ) : ℝ) ((0:ℕ) : ℝ) ((0:ℕ) : ℝ)).minY
        < (computeProjectedBBox ((1:ℕ) : ℝ) ((0:ℕ) : ℝ) ((0:ℕ) : ℝ)).maxY ∧
    (computeProjectedBBox ((1:ℕ) : ℝ) ((0:ℕ) : ℝ) ((0:ℕ) : ℝ)).maxX
        = (computeProjectedBBox ((1:ℕ) : ℝ) (((0:ℕ) + 1 : ℕ) : ℝ) ((0:ℕ) : ℝ)).minX) :=
  ⟨by norm_num, C7_nondegenerate_and_adjacent 1 0 0 (by norm_num) (by norm_num)⟩

/-- C8: at zoom 0, column 0, row 0 the transform produces the full-world
Web Mercator bounds: each coordinate is the exact value ±π·R and lies
within 0.01 of ±20037508.34. -/
theorem C8_zoom0_full_world_bounds :
    (computeProjectedBBox 0 0 0).minX = -(π * EARTH_RADIUS) ∧
    (computeProjectedBBox 0 0 0).minY = -(π * EARTH_RADIUS) ∧
    (computeProjectedBBox 0 0 0).maxX = π * EARTH_RADIUS ∧
    (computeProjectedBBox 0 0 0).maxY = π * EARTH_RADIUS ∧
    |(computeProjectedBBox 0 0 0).minX - (-20037508.34)| < 0.01 ∧
    |(computeProjectedBBox 0 0 0).minY - (-20037508.34)| < 0.01 ∧
    |(computeProjectedBBox 0 0 0).maxX - 20037508.34| < 0.01 ∧
    |(computeProjectedBBox 0 0 0).maxY - 20037508.34| < 0.01 := by
  have hpi := Real.pi_pos
  have h20 : (2:ℝ) ^ (0:ℝ) = 1 := Real.rpow_zero 2
  have hminX : (computeProjectedBBox 0 0 0).minX = -(π * EARTH_RADIUS) := by
    rw [bbox_minX]
    unfold tile2lon ORIGIN_SHIFT
    rw [h20]
    ring
  have hmaxX : (computeProjectedBBox 0 0 0).maxX = π * EARTH_RADIUS := by
    rw [bbox_maxX]
    unfold tile2lon ORIGIN_SHIFT
    rw [h20]
    ring
  have hminY : (computeProjectedBBox 0 0 0).minY = -(π * EARTH_RADIUS) := by
    rw [bbox_minY, tile2lat_eq]
    rw [mercator_y_formula _ _
      (by rw [h20]; rw [show π - 2 * π * (0 + 1) / 1 = -π by ring, abs_neg,
        abs_of_pos hpi] : |π - 2 * π * ((0:ℝ) + 1) / (2:ℝ) ^ (0:ℝ)| ≤ π)]
    rw [h20]
    ring
  have hmaxY : (computeProjectedBBox 0 0 0).maxY = π * EARTH_RADIUS := by
    rw [bbox_maxY, tile2lat_eq]
    rw [mercator_y_formula _ _
      (by rw [h20]; rw [show π - 2 * π * 0 / 1 = π by ring, abs_of_pos hpi]
        : |π - 2 * π * (0:ℝ) / (2:ℝ) ^ (0:ℝ)| ≤ π)]
    rw [h20]
    ring
  have hval : |π * EARTH_RADIUS - 20037508.34| < 0.01 := by
    unfold EARTH_RADIUS
    rw [abs_lt]
    constructor <;> nlinarith [Real.pi_gt_d20, Real.pi_lt_d20]
  have hvalneg : |(-(π * EARTH_RADIUS)) - (-20037508.34)| < 0.01 := by
    rw [show -(π * EARTH_RADIUS) - (-20037508.34:ℝ)
        = -(π * EARTH_RADIUS - 20037508.34) by ring, abs_neg]
    exact hval
  refine ⟨hminX, hminY, hmaxX, hmaxY, ?_, ?_, ?_, ?_⟩
  · rw [hminX]; exact hvalneg
  · rw [hminY]; exact hvalneg
  · rw [hmaxX]; exact hval
  · rw [hmaxY]; exact hval

/-- C9: for every integer zoom ≥ 0, row 0 does not hit the latitude
singularity: the projected north edge y is exactly R·π (finite, large, the
same at every zoom), bounded between 20037508 and 20037509, and the tile
latitude itself stays strictly below 85.06 degrees, short of ±90. -/
theorem C9_row_zero_pole_safe (z : ℕ) (x : ℝ) :
    (computeProjectedBBox ((z:ℕ) : ℝ) x 0).maxY = EARTH_RADIUS * π ∧
    20037508 < (computeProjectedBBox ((z:ℕ) : ℝ) x 0).maxY ∧
    (computeProjectedBBox ((z:ℕ) : ℝ) x 0).maxY < 20037509 ∧
    tile2lat 0 ((z:ℕ) : ℝ) < 85.06 := by
  have hpi := Real.pi_pos
  have hmaxY : (computeProjectedBBox ((z:ℕ) : ℝ) x 0).maxY = EARTH_RADIUS * π := by
    rw [bbox_maxY, tile2lat_eq]
    rw [mercator_y_formula _ _
      (by rw [show 2 * π * (0:ℝ) / (2:ℝ) ^ ((z:ℕ):ℝ) = 0 by ring, sub_zero,
        abs_of_pos hpi] : |π - 2 * π * (0:ℝ) / (2:ℝ) ^ ((z:ℕ):ℝ)| ≤ π)]
    rw [show 2 * π * (0:ℝ) / (2:ℝ) ^ ((z:ℕ):ℝ) = 0 by ring, sub_zero]
  have hlat : tile2lat 0 ((z:ℕ) : ℝ) < 85.06 := by
    rw [tile2lat_eq, sinh_half_term]
    rw [show π - 2 * π * (0:ℝ) / (2:ℝ) ^ ((z:ℕ):ℝ) = π by ring]
    calc (180 / π) * Real.arctan (Real.sinh π)
        < (180 / π) * (85.06 * π / 180) :=
          mul_lt_mul_of_pos_left arctan_sinh_pi_lt (by positivity)
      _ = 85.06 := by field_simp; ring
  refine ⟨hmaxY, ?_, ?_, hlat⟩ <;> rw [hmaxY] <;> unfold EARTH_RADIUS <;>
    nlinarith [Real.pi_gt_d20, Real.pi_lt_d20]

/-- C10: for every zoom and every row index 0 ≤ row ≤ 2^zoom the tile
latitude lies strictly inside (-85.06, 85.06) degrees, so the clamp to
[-89.9999, 89.9999] inside lonLatToWebMercator leaves it unchanged; the
clamp can only act on out-of-range rows. -/
theorem C10_clamp_inactive_in_range (z row : ℕ) (hrow : row ≤ 2 ^ z) :
    -85.06 < tile2lat (row : ℝ) ((z:ℕ) : ℝ) ∧
    tile2lat (row : ℝ) ((z:ℕ) : ℝ) < 85.06 ∧
    max (min (tile2lat (row : ℝ) ((z:ℕ) : ℝ)) 89.9999) (-89.9999)
      = tile2lat (row : ℝ) ((z:ℕ) : ℝ) := by
  have hpi := Real.pi_pos
  have hpow : (2:ℝ) ^ ((z:ℕ):ℝ) = (((2:ℕ) ^ z : ℕ) : ℝ) := by
    rw [Real.rpow_natCast]; push_cast; ring
  have hr1 : (row : ℝ) ≤ (2:ℝ) ^ ((z:ℕ):ℝ) := by
    rw [hpow]; exact_mod_cast hrow
  have hn := abs_n_le ((z:ℕ):ℝ) (row : ℝ) (by positivity) hr1
  have hbound : |tile2lat (row : ℝ) ((z:ℕ) : ℝ)| < 85.06 := by
    rw [tile2lat_eq, sinh_half_term]
    rw [abs_mul, abs_of_pos (by positivity : (0:ℝ) < 180 / π)]
    calc 180 / π * |Real.arctan (Real.sinh (π - 2 * π * (row:ℝ) / (2:ℝ) ^ ((z:ℕ):ℝ)))|
        ≤ 180 / π * Real.arctan (Real.sinh π) :=
          mul_le_mul_of_nonneg_left (abs_arctan_sinh_le _ hn) (by positivity)
      _ < 180 / π * (85.06 * π / 180) :=
          mul_lt_mul_of_pos_left arctan_sinh_pi_lt (by positivity)
      _ = 85.06 := by field_simp; ring
  rw [abs_lt] at hbound
  exact ⟨hbound.1, hbound.2,
    by rw [min_eq_left (by linarith), max_eq_left (by linarith)]⟩

/-- Witness for C10 at zoom 0, row 1 (the south edge of the single tile). -/
theorem C10_witness :
    (1 : ℕ) ≤ 2 ^ 0 ∧
    (-85.06 < tile2lat ((1:ℕ) : ℝ) ((0:ℕ) : ℝ) ∧
    tile2lat ((1:ℕ) : ℝ) ((0:ℕ) : ℝ) < 85.06 ∧
    max (min (tile2lat ((1:ℕ) : ℝ) ((0:ℕ) : ℝ)) 89.9999) (-89.9999)
      = tile2lat ((1:ℕ) : ℝ) ((0:ℕ) : ℝ)) :=
  ⟨by norm_num, C10_clamp_inactive_in_range 0 1 (by norm_num)⟩

end FloodRadar
